import Mathlib

/-!
Verification of the goptuna-libffm hyperparameter search driver.

The repository consists of a single Go `main` package in several observed
variants:
* `src/unnamed/part_000` — the signal-handling variant: `objective` suggests
  lambda, eta and latent, launches `./ffm-train` through
  `exec.CommandContext`, ignores the exit status, reads the per-trial JSON
  meta file and returns `best_va_loss`; `main` spawns `NumCPU()-1` workers,
  each calling `study.Optimize(objective, 1000/concurrency)`, joined by a
  `sync.WaitGroup` that also counts the signal-listener goroutine.
* `src/main.go` holds three further variants; the middle one resolves the
  evaluator binary from the `LIBFFM_CLI` environment variable and treats a
  non-zero exit status of the evaluator as an error.

Scores are modelled as rationals: the Go code performs no floating-point
arithmetic on them — a parsed `best_va_loss` is returned and stored verbatim,
so exact propagation is what matters. External collaborators (goptuna, the
OS process runtime, channels) are modelled at their documented interfaces.
-/

/-- Result of one external `ffm-train` process run: its exit status and the
captured output streams (`cmd.Stdout`/`cmd.Stderr` buffers). -/
structure ProcResult where
  exitOk : Bool
  stdoutStr : String
  stderrStr : String
  deriving DecidableEq

/-- Outcome of the `cmd.Run()` call under `exec.CommandContext` semantics:
when the bound context is cancelled while the process runs, the runtime kills
the child process and `Run` returns a non-nil error; otherwise `Run` returns
nil exactly when the process exited with status zero. -/
def cmdRunStatus (cancelled : Bool) (p : ProcResult) : Option String :=
  if cancelled then some "signal: killed"
  else if p.exitOk then none
  else some "exit status 1"

/-- Content of the per-trial scratch (JSON meta) file as the objective sees
it: `missing` models an `ioutil.ReadFile` failure, `invalidJson` a
`json.Unmarshal` failure, and `jsonObj` a well-formed JSON object whose
numeric members are listed as key/value pairs. -/
inductive FileContent where
  | missing
  | invalidJson
  | jsonObj (fields : List (String × ℚ))
  deriving DecidableEq

/-- Go `encoding/json` member lookup on an object: the last duplicate of a
key wins; an absent key leaves the struct field at its zero value 0. -/
def lookupNum (fields : List (String × ℚ)) (key : String) : ℚ :=
  match (fields.filter (fun p => p.1 = key)).getLast? with
  | some p => p.2
  | none => 0

/-- Parsed form of the result struct with fields `BestIteration int`
(JSON tag `best_iteration`) and `BestVALoss float64` (JSON tag
`best_va_loss`). -/
structure FfmMeta where
  bestIteration : ℤ
  bestVALoss : ℚ
  deriving DecidableEq

/-- Unmarshalling the two tagged fields out of a JSON object: unknown keys
are ignored, absent keys stay zero, and a non-integral number under the
`int`-typed `best_iteration` field is an unmarshal error (`none`). -/
def unmarshalMeta (fields : List (String × ℚ)) : Option FfmMeta :=
  let bi := lookupNum fields "best_iteration"
  if bi.den = 1 then
    some ⟨bi.num, lookupNum fields "best_va_loss"⟩
  else
    none

/-- Record parsed from the scratch file, when both the read and the
unmarshal succeed. -/
def parseOf (file : FileContent) : Option FfmMeta :=
  match file with
  | .missing => none
  | .invalidJson => none
  | .jsonObj fields => unmarshalMeta fields

/-- Results handed back by the goptuna trial handle for the four suggestion
calls the objective makes (`SuggestLogUniform` twice, `SuggestInt`,
`Number`); each may fail with an error. -/
structure SuggestEnv where
  lambdaRes : Except String ℚ
  etaRes : Except String ℚ
  latentRes : Except String ℤ
  numberRes : Except String ℤ

/-- Environment in which every suggestion call succeeds. -/
def okEnv (lmd eta : ℚ) (latent number : ℤ) : SuggestEnv :=
  ⟨.ok lmd, .ok eta, .ok latent, .ok number⟩

/-- All four suggestion calls succeed. -/
def suggestOk (env : SuggestEnv) : Bool :=
  env.lambdaRes.isOk && env.etaRes.isOk && env.latentRes.isOk &&
    env.numberRes.isOk

/-- Observable outcome of one `objective` call in `src/unnamed/part_000`:
the returned score, the returned error (`none` models a nil Go error), the
user attributes set on the trial in order, and whether control reached the
`ioutil.ReadFile` call on the scratch file. -/
structure ObjResult where
  score : ℚ
  errMsg : Option String
  attrs : List (String × String)
  readAttempted : Bool
  deriving DecidableEq

/-- Shallow embedding of `objective` from `src/unnamed/part_000` (lines
25-85). Control flow of the source: each failing suggestion returns
`(-1, err)`; `_ = cmd.Run()` discards the process status (including the
kill reported on cancellation), so execution always proceeds to read the
scratch file; a read or unmarshal failure returns `(-1, wrapped err)`; the
all-zero sentinel returns `(-1, "failed to open json meta")`; otherwise the
three user attributes are set and `(BestVALoss, nil)` is returned. -/
def objectiveP0 (env : SuggestEnv) (cancelled : Bool) (proc : ProcResult)
    (file : FileContent) : ObjResult :=
  match env.lambdaRes with
  | .error e => ⟨-1, some e, [], false⟩
  | .ok _ =>
  match env.etaRes with
  | .error e => ⟨-1, some e, [], false⟩
  | .ok _ =>
  match env.latentRes with
  | .error e => ⟨-1, some e, [], false⟩
  | .ok _ =>
  match env.numberRes with
  | .error e => ⟨-1, some e, [], false⟩
  | .ok _ =>
    -- line 62: `_ = cmd.Run()` — the status is computed and dropped
    let _ := cmdRunStatus cancelled proc
    match file with
    | .missing => ⟨-1, some "failed to read json: read error", [], true⟩
    | .invalidJson => ⟨-1, some "failed to read json: unmarshal error", [], true⟩
    | .jsonObj fields =>
      match unmarshalMeta fields with
      | none => ⟨-1, some "failed to read json: unmarshal error", [], true⟩
      | some r =>
        if r.bestIteration = 0 ∧ r.bestVALoss = 0 then
          ⟨-1, some "failed to open json meta", [], true⟩
        else
          ⟨r.bestVALoss, none,
            [("best_iteration", toString r.bestIteration),
             ("stdout", proc.stdoutStr),
             ("stderr", proc.stderrStr)], true⟩

/-- Zero-padding of a digit string to a fixed width, for the fractional part
of Go's fixed-point formatting. -/
def padZeros (s : String) (w : ℕ) : String :=
  if s.length ≥ w then s else String.mk (List.replicate (w - s.length) '0') ++ s

/-- Model of Go's `fmt.Sprintf` with verb `%f`: fixed-point notation with six
fractional digits, rounding half to even, the sign of the argument kept. -/
def goFmtF (q : ℚ) : String :=
  let scaled : ℚ := |q| * 1000000
  let fl : ℤ := ⌊scaled⌋
  let n : ℤ :=
    if scaled - fl < 1/2 then fl
    else if (1 : ℚ)/2 < scaled - fl then fl + 1
    else if fl % 2 = 0 then fl else fl + 1
  let m : ℕ := n.toNat
  (if q < 0 then "-" else "") ++
    toString (m / 1000000) ++ "." ++ padZeros (toString (m % 1000000)) 6

/-- Per-trial scratch file path, `getMetaPath` in `src/main.go` (and inlined
at line 42 of `src/unnamed/part_000`). -/
def getMetaPath (trialNumber : ℤ) : String :=
  "./data/optuna/ffm-meta-" ++ toString trialNumber ++ ".json"

/-- Go `os.Getenv` over a model of the environment: it yields the variable's
value when set and the empty string when unset. -/
def getenvStr (v : Option String) : String := v.getD ""

/-- Evaluator binary resolution of the `LIBFFM_CLI` variant of `src/main.go`
(lines 177-180): the environment value when non-empty, else the default
`./ffm-train`. -/
def libffmPath (envVal : Option String) : String :=
  let libffm := getenvStr envVal
  if libffm = "" then "./ffm-train" else libffm

/-- Argument list built for the evaluator in the `LIBFFM_CLI` variant of
`src/main.go` (lines 182-191); it does not mention the environment value. -/
def ffmTrainArgsEnvVar (lmd eta : ℚ) (metaPath : String) : List String :=
  ["-p", "./data/valid2.txt",
   "--auto-stop", "--auto-stop-threshold", "3",
   "-l", goFmtF lmd,
   "-r", goFmtF eta,
   "-k", "4",
   "-t", "500",
   "--json-meta", metaPath,
   "./data/train2.txt"]

/-- Full invocation (binary path and arguments) of the `LIBFFM_CLI` variant. -/
def ffmCommandEnvVar (envVal : Option String) (lmd eta : ℚ)
    (metaPath : String) : String × List String :=
  (libffmPath envVal, ffmTrainArgsEnvVar lmd eta metaPath)

/-- Suggestion results for the `LIBFFM_CLI` variant of `objective`, which
suggests only lambda and eta (the latent dimension is the fixed `-k 4`)
before asking for the trial number. -/
structure SuggestEnv2 where
  lambdaRes : Except String ℚ
  etaRes : Except String ℚ
  numberRes : Except String ℤ

/-- Shallow embedding of `objective` from the `LIBFFM_CLI` variant of
`src/main.go` (lines 162-220). Unlike `src/unnamed/part_000`, this variant
checks the error of `cmd.Run()` (lines 194-196): a non-zero exit status
returns `(-1, err)` before the scratch file is ever read. The command is
built with `exec.Command`, without a context, so no cancellation applies. -/
def objectiveEnvVar (env : SuggestEnv2) (proc : ProcResult)
    (file : FileContent) : ObjResult :=
  match env.lambdaRes with
  | .error e => ⟨-1, some e, [], false⟩
  | .ok _ =>
  match env.etaRes with
  | .error e => ⟨-1, some e, [], false⟩
  | .ok _ =>
  match env.numberRes with
  | .error e => ⟨-1, some e, [], false⟩
  | .ok _ =>
  match cmdRunStatus false proc with
  | some e => ⟨-1, some e, [], false⟩
  | none =>
    match file with
    | .missing => ⟨-1, some "read error", [], true⟩
    | .invalidJson => ⟨-1, some "unmarshal error", [], true⟩
    | .jsonObj fields =>
      match unmarshalMeta fields with
      | none => ⟨-1, some "unmarshal error", [], true⟩
      | some r =>
        if r.bestIteration = 0 ∧ r.bestVALoss = 0 then
          ⟨-1, some "failed to open json meta", [], true⟩
        else
          ⟨r.bestVALoss, none,
            [("best_iteration", toString r.bestIteration)], true⟩

/-- Worker count chosen by `main` (`runtime.NumCPU() - 1`, line 130 of
`src/unnamed/part_000`). -/
def concurrencyOf (numCPU : ℕ) : ℕ := numCPU - 1

/-- Trial budget passed to each worker's `study.Optimize` call (line 135 of
`src/unnamed/part_000`): the integer quotient `1000 / concurrency`, fixed
before any worker starts. -/
def perWorkerBudget (concurrency : ℕ) : ℕ := 1000 / concurrency

/-- Total number of trials attempted across all workers in a run with no
cancellation: each of the `concurrency` goroutines calls
`study.Optimize(objective, 1000/concurrency)`, and by the goptuna interface
an uncancelled `Optimize(f, n)` call attempts exactly `n` trials. -/
def totalAttempted (concurrency : ℕ) : ℕ :=
  concurrency * perWorkerBudget concurrency

/-- Observable effect of the signal-listener goroutine: how many times it
called `cancel()` and which signal string it logged. -/
structure ListenerEffect where
  cancelCalls : ℕ
  logged : Option String
  deriving DecidableEq

/-- Body of the listener goroutine (lines 119-127 of
`src/unnamed/part_000`): a single receive from `sigch`; on a closed channel
(`ok = false`) it returns without cancelling; on a received signal it calls
`cancel()` once, logs the signal name, and returns. -/
def listenerBody (received : Option String) : ListenerEffect :=
  match received with
  | none => ⟨0, none⟩
  | some s => ⟨1, some s⟩

/-- The listener over a whole run: the goroutine performs exactly one
receive, so of the sequence of signals delivered to the buffered channel it
consumes only the first, and it never runs again afterwards. -/
def listenerRun (delivered : List String) : ListenerEffect :=
  listenerBody delivered.head?

/-- Parameters of one run of `main` in `src/unnamed/part_000` that matter
for the final join: whether any termination signal is ever delivered and
whether every worker's `study.Optimize` call returns (it does once its
budget is exhausted). -/
structure MainRun where
  signalDelivered : Bool
  allOptimizeReturn : Bool

/-- Whether `close(sigch)` has run by the time `wg.Wait()` would return:
the close is deferred (line 114 of `src/unnamed/part_000`), so it executes
only during `main`'s return, strictly after `wg.Wait()` (line 141) has
already returned. -/
def sigchClosedBeforeWaitReturns : Bool := false

/-- The listener goroutine reaches `wg.Done()` only once its receive on
`sigch` completes: a signal value arrives, or the channel is closed. -/
def listenerGoroutineDone (m : MainRun) : Bool :=
  m.signalDelivered || sigchClosedBeforeWaitReturns

/-- `wg.Wait()` (line 141) returns exactly when every goroutine registered
in the wait group has called `wg.Done()`: the signal listener (added at
line 118) and all worker goroutines (added at line 132). -/
def wgWaitReturns (m : MainRun) : Bool :=
  listenerGoroutineDone m && m.allOptimizeReturn

/-- The best-trial report (lines 143-147) runs only after `wg.Wait()` has
returned. -/
def bestTrialReported (m : MainRun) : Bool := wgWaitReturns m

/-- Record of a trial with status Complete as stored by goptuna: its
number, its value, and its parameter map (goptuna stores every suggested
parameter, including integer ones, as a float64). -/
structure CompletedTrial where
  number : ℕ
  value : ℚ
  params : List (String × ℚ)
  deriving DecidableEq

/-- Comparison step of the best-trial scan: a later trial replaces the
current best only when its value is strictly smaller, so on ties the first
trial found wins. -/
def betterTrial (a b : CompletedTrial) : CompletedTrial :=
  if b.value < a.value then b else a

/-- Best completed trial of the study by the goptuna interface: the
minimum-value trial among the completed ones, or an error (`none`) when the
study has no completed trial. -/
def bestCompleted : List CompletedTrial → Option CompletedTrial
  | [] => none
  | t :: ts => some (ts.foldl betterTrial t)

/-- Value obtained at line 144 of `src/unnamed/part_000`:
`v, _ := study.GetBestValue()` discards the error, so with no completed
trial `v` is left at the float64 zero value. -/
def getBestValueP0 (trials : List CompletedTrial) : ℚ :=
  match bestCompleted trials with
  | none => 0
  | some t => t.value

/-- Params obtained at line 145: `params, _ := study.GetBestParams()`
discards the error, so with no completed trial `params` is the nil map. -/
def getBestParamsP0 (trials : List CompletedTrial) : Option (List (String × ℚ)) :=
  (bestCompleted trials).map (fun t => t.params)

/-- Go expression `params[key].(float64)`: indexing a map (nil included)
with an absent key yields the zero value of the element type, here the nil
interface, and the unchecked type assertion on it panics (`none`); a present
key yields its float value. -/
def assertFloat (params : List (String × ℚ)) (key : String) : Option ℚ :=
  match params.find? (fun p => p.1 = key) with
  | some p => some p.2
  | none => none

/-- Outcome of the final report statement: either the formatted log line was
printed, or the statement panicked at runtime. -/
inductive ReportOutcome where
  | line (s : String)
  | panicked
  deriving DecidableEq

/-- Shallow embedding of the result report of `src/unnamed/part_000`
(lines 143-147): both errors are discarded, then
`log.Printf("Best evaluation=%f (lambda=%f, eta=%f, latent=%f)", v,
params["lambda"].(float64), params["eta"].(float64),
params["latent"].(float64))`; any of the three unchecked type assertions
panics when its key is absent, in particular on the nil map. -/
def reportBestP0 (trials : List CompletedTrial) : ReportOutcome :=
  let v := getBestValueP0 trials
  let params := (getBestParamsP0 trials).getD []
  match assertFloat params "lambda", assertFloat params "eta",
      assertFloat params "latent" with
  | some l, some e, some k =>
      .line ("Best evaluation=" ++ goFmtF v ++ " (lambda=" ++ goFmtF l ++
        ", eta=" ++ goFmtF e ++ ", latent=" ++ goFmtF k ++ ")")
  | _, _, _ => .panicked

/-! Helper lemmas shared by the claim theorems. -/

/-- Helper: with every suggestion succeeding and the scratch file holding
exactly the two tagged fields, the part_000 objective reduces to the
all-zero sentinel test on the parsed record. -/
theorem objectiveP0_two_field (lmd eta : ℚ) (k n bi : ℤ) (bs : ℚ) (c : Bool)
    (p : ProcResult) :
    objectiveP0 (okEnv lmd eta k n) c p
        (.jsonObj [("best_iteration", (bi : ℚ)), ("best_va_loss", bs)]) =
      if bi = 0 ∧ bs = 0 then
        ⟨-1, some "failed to open json meta", [], true⟩
      else
        ⟨bs, none, [("best_iteration", toString bi),
          ("stdout", p.stdoutStr), ("stderr", p.stderrStr)], true⟩ := by
  have hm : unmarshalMeta [("best_iteration", (bi : ℚ)), ("best_va_loss", bs)]
      = some ⟨bi, bs⟩ := rfl
  show (match unmarshalMeta [("best_iteration", (bi : ℚ)),
      ("best_va_loss", bs)] with
    | none => (⟨-1, some "failed to read json: unmarshal error", [], true⟩ : ObjResult)
    | some r =>
      if r.bestIteration = 0 ∧ r.bestVALoss = 0 then
        ⟨-1, some "failed to open json meta", [], true⟩
      else
        ⟨r.bestVALoss, none,
          [("best_iteration", toString r.bestIteration),
           ("stdout", p.stdoutStr),
           ("stderr", p.stderrStr)], true⟩) = _
  rw [hm]

/-- Helper: the part_000 objective never inspects the discarded `cmd.Run`
status, so its result does not depend on the cancellation flag or on the
process exit status. -/
theorem objectiveP0_run_status_irrelevant (env : SuggestEnv)
    (c c' : Bool) (x x' : Bool) (so se : String) (file : FileContent) :
    objectiveP0 env c ⟨x, so, se⟩ file = objectiveP0 env c' ⟨x', so, se⟩ file := by
  obtain ⟨l, e, k, n⟩ := env
  cases l <;> cases e <;> cases k <;> cases n <;> rfl

/-- Helper: with every suggestion succeeding, the part_000 objective always
reaches the `ioutil.ReadFile` call on the scratch file. -/
theorem objectiveP0_always_reads (lmd eta : ℚ) (k n : ℤ) (c : Bool)
    (p : ProcResult) (file : FileContent) :
    (objectiveP0 (okEnv lmd eta k n) c p file).readAttempted = true := by
  cases file with
  | missing => rfl
  | invalidJson => rfl
  | jsonObj fields =>
    show (match unmarshalMeta fields with
      | none => (⟨-1, some "failed to read json: unmarshal error", [], true⟩ : ObjResult)
      | some r =>
        if r.bestIteration = 0 ∧ r.bestVALoss = 0 then
          ⟨-1, some "failed to open json meta", [], true⟩
        else
          ⟨r.bestVALoss, none,
            [("best_iteration", toString r.bestIteration),
             ("stdout", p.stdoutStr),
             ("stderr", p.stderrStr)], true⟩).readAttempted = true
    rcases unmarshalMeta fields with _ | r
    · rfl
    · by_cases hs : r.bestIteration = 0 ∧ r.bestVALoss = 0
      · simp [hs]
      · simp [hs]

/-- Claim C1 counterexample: on a 4-CPU machine `main` spawns 3 workers and
hands each the fixed share `1000 / 3 = 333` up front, so a run with no
cancellation attempts `3 * 333 = 999` trials — not the configured budget of
1000 — refuting both the exact-budget claim and the claimed centralized
atomic check-and-decrement. -/
theorem C1_fixed_share_counterexample :
    totalAttempted (concurrencyOf 4) = 999 ∧ perWorkerBudget (concurrencyOf 4) = 333 ∧
      totalAttempted (concurrencyOf 4) ≠ 1000 := by decide

/-- Claim C1 (amended): each worker receives the fixed share
`1000 / concurrency` decided before any worker starts; the total number of
trials attempted across all workers in an uncancelled run is
`concurrency * (1000 / concurrency)`, which never exceeds 1000 and equals
1000 exactly when the worker count divides 1000. -/
theorem C1_amended_budget (c : ℕ) :
    totalAttempted c ≤ 1000 ∧ (totalAttempted c = 1000 ↔ c ∣ 1000) := by
  unfold totalAttempted perWorkerBudget
  refine ⟨?_, ?_, ?_⟩
  · calc c * (1000 / c) = 1000 / c * c := Nat.mul_comm ..
    _ ≤ 1000 := Nat.div_mul_le_self 1000 c
  · intro h
    exact ⟨1000 / c, h.symm⟩
  · intro h
    exact Nat.mul_div_cancel' h

/-- Claim C2 counterexample: an evaluator output whose members are
`best_iteration = 42` and `best_score = 0.1834` (the key the claim uses)
does not yield value 0.1834: the struct's score field is tagged
`best_va_loss`, so `best_score` is ignored, the field stays 0, the sentinel
does not fire (iteration is 42), and the trial completes with value 0 and a
nil error. -/
theorem C2_best_score_key_counterexample :
    (objectiveP0 (okEnv 1 1 4 7) false ⟨true, "", ""⟩
        (.jsonObj [("best_iteration", 42), ("best_score", 917/5000)])).score = 0 ∧
    (objectiveP0 (okEnv 1 1 4 7) false ⟨true, "", ""⟩
        (.jsonObj [("best_iteration", 42), ("best_score", 917/5000)])).errMsg = none ∧
    (0 : ℚ) ≠ 917/5000 := by
  refine ⟨rfl, rfl, by norm_num⟩

/-- Claim C2 (amended): for every trial that completes, the recorded value
is exactly the float parsed from the file's `best_va_loss` member (not
`best_score`) and the attributes record the parsed best iteration; in
particular a file with members `best_iteration = 42` and
`best_va_loss = 0.1834` yields value 0.1834 and attribute
`best_iteration = "42"`. -/
theorem C2_amended_value_from_va_loss (lmd eta : ℚ) (k n bi : ℤ) (bs : ℚ)
    (c : Bool) (p : ProcResult) (hnz : ¬(bi = 0 ∧ bs = 0)) :
    objectiveP0 (okEnv lmd eta k n) c p
        (.jsonObj [("best_iteration", (bi : ℚ)), ("best_va_loss", bs)]) =
      ⟨bs, none, [("best_iteration", toString bi),
        ("stdout", p.stdoutStr), ("stderr", p.stderrStr)], true⟩ := by
  rw [objectiveP0_two_field, if_neg hnz]

/-- Claim C2 witness: the corrected scenario evaluated concretely — members
`best_iteration = 42` and `best_va_loss = 0.1834` give a nil error, value
0.1834, and the `best_iteration` attribute `"42"`. -/
theorem C2_amended_value_from_va_loss_witness :
    objectiveP0 (okEnv 1 1 4 7) false ⟨true, "out", "err"⟩
        (.jsonObj [("best_iteration", ((42 : ℤ) : ℚ)), ("best_va_loss", 917/5000)]) =
      ⟨917/5000, none, [("best_iteration", toString (42 : ℤ)),
        ("stdout", "out"), ("stderr", "err")], true⟩ :=
  C2_amended_value_from_va_loss 1 1 4 7 42 (917/5000) false ⟨true, "out", "err"⟩
    (by decide)

/-- Claim C3: the wait group of `main` also counts the signal-listener
goroutine; in a run where every worker's `Optimize` call returns but no
signal is ever delivered, the listener stays blocked on `sigch` (which is
closed only after the wait), so `wg.Wait()` never returns and the best
trial is never queried or reported — the program blocks indefinitely,
contradicting the clean-join claim. -/
theorem C3_join_blocks_without_signal :
    wgWaitReturns ⟨false, true⟩ = false ∧
      bestTrialReported ⟨false, true⟩ = false := by decide

/-- Claim C4 counterexample: the token fires while the process runs (the
runtime kills the child and `cmd.Run` reports it), yet the objective still
reads the scratch file — and with a valid record present it even returns
the parsed score with a nil error, not a Cancelled outcome without a read. -/
theorem C4_reads_after_cancel_counterexample :
    cmdRunStatus true ⟨false, "", ""⟩ = some "signal: killed" ∧
    (objectiveP0 (okEnv 1 1 4 7) true ⟨false, "", ""⟩
        (.jsonObj [("best_iteration", 42), ("best_va_loss", 917/5000)])).readAttempted
      = true ∧
    (objectiveP0 (okEnv 1 1 4 7) true ⟨false, "", ""⟩
        (.jsonObj [("best_iteration", 42), ("best_va_loss", 917/5000)])).errMsg
      = none := by decide

/-- Claim C4 (amended): when the token fires during the run the process is
killed (`exec.CommandContext` semantics, reported by `cmd.Run`), but the
objective discards that status: its result is identical with and without
cancellation, and with successful suggestions it always proceeds to read
the scratch file, classifying the attempt by the file contents alone. -/
theorem C4_amended_cancel_ignored (env : SuggestEnv) (x x' : Bool)
    (so se : String) (file : FileContent) (lmd eta : ℚ) (k n : ℤ) :
    cmdRunStatus true ⟨x, so, se⟩ = some "signal: killed" ∧
    objectiveP0 env true ⟨x, so, se⟩ file = objectiveP0 env false ⟨x', so, se⟩ file ∧
    (objectiveP0 (okEnv lmd eta k n) true ⟨x, so, se⟩ file).readAttempted = true := by
  exact ⟨rfl, objectiveP0_run_status_irrelevant env true false x x' so se file,
    objectiveP0_always_reads lmd eta k n true ⟨x, so, se⟩ file⟩

/-- Claim C5 counterexample: in the `LIBFFM_CLI` variant of `src/main.go`
the objective checks the `cmd.Run` error, so a process that exits with
status 1 while leaving a valid non-zero record makes the call return
`(-1, exit error)` without ever reading the scratch file — the exit code
alone is treated as failure and the trial is not classified Complete. -/
theorem C5_strict_variant_counterexample :
    objectiveEnvVar ⟨.ok 1, .ok 1, .ok 7⟩ ⟨false, "", ""⟩
        (.jsonObj [("best_iteration", 42), ("best_va_loss", 917/5000)]) =
      ⟨-1, some "exit status 1", [], false⟩ := rfl

/-- Claim C5 (amended): the `part_000` objective (like the first `main.go`
variant) ignores the exit status entirely — its result is the same for a
zero and a non-zero exit — and a valid non-zero record yields a nil error
with the parsed score; the `LIBFFM_CLI` variant instead propagates the exit
error. -/
theorem C5_amended_exit_status (env : SuggestEnv) (c : Bool) (so se : String)
    (file : FileContent) (lmd eta : ℚ) (k n bi : ℤ) (bs : ℚ)
    (hnz : ¬(bi = 0 ∧ bs = 0)) :
    objectiveP0 env c ⟨false, so, se⟩ file = objectiveP0 env c ⟨true, so, se⟩ file ∧
    objectiveP0 (okEnv lmd eta k n) c ⟨false, so, se⟩
        (.jsonObj [("best_iteration", (bi : ℚ)), ("best_va_loss", bs)]) =
      ⟨bs, none, [("best_iteration", toString bi), ("stdout", so),
        ("stderr", se)], true⟩ := by
  refine ⟨objectiveP0_run_status_irrelevant env c c false true so se file, ?_⟩
  rw [objectiveP0_two_field, if_neg hnz]

/-- Claim C5 witness: concrete early-stop scenario for the lenient variant —
exit status non-zero, record `(42, 0.1834)` — classified with nil error and
score 0.1834. -/
theorem C5_amended_exit_status_witness :
    objectiveP0 (okEnv 1 1 4 7) false ⟨false, "o", "e"⟩
        (.jsonObj [("best_iteration", ((42 : ℤ) : ℚ)), ("best_va_loss", 917/5000)]) =
      ⟨917/5000, none, [("best_iteration", toString (42 : ℤ)), ("stdout", "o"),
        ("stderr", "e")], true⟩ :=
  (C5_amended_exit_status (okEnv 1 1 4 7) false "o" "e" .missing 1 1 4 7 42
    (917/5000) (by decide)).2

/-- Claim C6: the all-zero sentinel — with every suggestion succeeding and a
record parsing to `(bi, bs)`, the objective returns the
"failed to open json meta" error exactly when both fields are zero, and
returns a nil error (a valid Complete trial) exactly when at least one is
non-zero; an all-zero record is therefore never recorded as Complete. -/
theorem C6_all_zero_sentinel (lmd eta : ℚ) (k n bi : ℤ) (bs : ℚ) (c : Bool)
    (p : ProcResult) :
    ((objectiveP0 (okEnv lmd eta k n) c p
        (.jsonObj [("best_iteration", (bi : ℚ)), ("best_va_loss", bs)])).errMsg
      = some "failed to open json meta" ↔ (bi = 0 ∧ bs = 0)) ∧
    ((objectiveP0 (okEnv lmd eta k n) c p
        (.jsonObj [("best_iteration", (bi : ℚ)), ("best_va_loss", bs)])).errMsg
      = none ↔ ¬(bi = 0 ∧ bs = 0)) := by
  rw [objectiveP0_two_field]
  by_cases hs : bi = 0 ∧ bs = 0
  · rw [if_pos hs]
    simp [hs]
  · rw [if_neg hs]
    simp [hs]

/-- Claim C7: when the run ends with no Complete trial, `GetBestParams`
returns an error that line 145 discards, leaving the nil map, and the
report statement then panics on the unchecked type assertion
`params["lambda"].(float64)` — it crashes rather than surfacing a
"no complete trials" condition. -/
theorem C7_no_complete_trials_panic :
    getBestParamsP0 [] = none ∧ reportBestP0 [] = .panicked := by decide

/-- Claim C8: the listener goroutine performs a single receive on `sigch`:
on the first delivered signal it calls `cancel()` exactly once and logs that
signal; any further delivered signals change nothing (the effect equals that
of the first signal alone), and over every delivery sequence the number of
`cancel()` calls is at most one — no panic, no double fire. -/
theorem C8_single_receive_single_fire (s : String) (rest : List String)
    (delivered : List String) :
    listenerRun (s :: rest) = ⟨1, some s⟩ ∧
    listenerRun (s :: rest) = listenerRun [s] ∧
    (listenerRun delivered).cancelCalls ≤ 1 := by
  refine ⟨rfl, rfl, ?_⟩
  cases delivered <;> simp [listenerRun, listenerBody]

/-- Claim C9: the evaluator invocation uses the `LIBFFM_CLI` value as the
binary path whenever it is set and non-empty, and the default `./ffm-train`
when it is unset or empty; the argument list is the same in either case. -/
theorem C9_env_override (v : Option String) (lmd eta : ℚ) (mp : String) :
    (getenvStr v ≠ "" → (ffmCommandEnvVar v lmd eta mp).1 = getenvStr v) ∧
    (getenvStr v = "" → (ffmCommandEnvVar v lmd eta mp).1 = "./ffm-train") ∧
    (ffmCommandEnvVar v lmd eta mp).2 = ffmTrainArgsEnvVar lmd eta mp := by
  refine ⟨fun h => ?_, fun h => ?_, rfl⟩
  · simp [ffmCommandEnvVar, libffmPath, h]
  · simp [ffmCommandEnvVar, libffmPath, h]

/-- Claim C9 witness: a set, non-empty override is used verbatim as the
binary path, and an unset override falls back to `./ffm-train`. -/
theorem C9_env_override_witness :
    (ffmCommandEnvVar (some "/usr/local/bin/ffm-train") 1 1 "m.json").1
        = getenvStr (some "/usr/local/bin/ffm-train") ∧
    (ffmCommandEnvVar none 1 1 "m.json").1 = "./ffm-train" :=
  ⟨(C9_env_override (some "/usr/local/bin/ffm-train") 1 1 "m.json").1 (by decide),
   (C9_env_override none 1 1 "m.json").2.1 rfl⟩

/-- Claim C10: error characterization of the `part_000` objective — the
returned error is nil exactly when every suggestion succeeded, the scratch
file was read and parsed, and the all-zero sentinel did not fire; every
error path returns the sentinel score -1; and on the nil-error path the
returned score is the parsed best loss. -/
theorem C10_error_characterization (env : SuggestEnv) (c : Bool)
    (p : ProcResult) (file : FileContent) :
    ((objectiveP0 env c p file).errMsg = none ↔
      (suggestOk env = true ∧ ∃ r, parseOf file = some r ∧
        ¬(r.bestIteration = 0 ∧ r.bestVALoss = 0))) ∧
    ((objectiveP0 env c p file).errMsg ≠ none →
      (objectiveP0 env c p file).score = -1) ∧
    (∀ r, parseOf file = some r → suggestOk env = true →
      ¬(r.bestIteration = 0 ∧ r.bestVALoss = 0) →
      (objectiveP0 env c p file).errMsg = none ∧
      (objectiveP0 env c p file).score = r.bestVALoss) := by
  obtain ⟨l, e, k, n⟩ := env
  rcases l with msg | lv
  · simp [objectiveP0, suggestOk, Except.isOk, Except.toBool]
  rcases e with msg | ev
  · simp [objectiveP0, suggestOk, Except.isOk, Except.toBool]
  rcases k with msg | kv
  · simp [objectiveP0, suggestOk, Except.isOk, Except.toBool]
  rcases n with msg | nv
  · simp [objectiveP0, suggestOk, Except.isOk, Except.toBool]
  cases file with
  | missing => simp [objectiveP0, suggestOk, Except.isOk, Except.toBool, parseOf]
  | invalidJson => simp [objectiveP0, suggestOk, Except.isOk, Except.toBool, parseOf]
  | jsonObj fields =>
    rcases h : unmarshalMeta fields with _ | r
    · simp [objectiveP0, suggestOk, Except.isOk, Except.toBool, parseOf, h]
    · by_cases hs : r.bestIteration = 0 ∧ r.bestVALoss = 0
      · simp [objectiveP0, suggestOk, Except.isOk, Except.toBool, parseOf, h, hs]
      · simp [objectiveP0, suggestOk, Except.isOk, Except.toBool, parseOf, h, hs]
        exact fun h1 h2 => hs ⟨h1, h2⟩

/-- Claim C10 witness: concrete nil-error run — all suggestions succeed, the
file parses to `(42, 0.1834)`, the sentinel does not fire, and the returned
score is the parsed best loss. -/
theorem C10_error_characterization_witness :
    (objectiveP0 (okEnv 1 1 4 7) false ⟨true, "", ""⟩
        (.jsonObj [("best_iteration", ((42 : ℤ) : ℚ)),
          ("best_va_loss", 917/5000)])).errMsg = none ∧
    (objectiveP0 (okEnv 1 1 4 7) false ⟨true, "", ""⟩
        (.jsonObj [("best_iteration", ((42 : ℤ) : ℚ)),
          ("best_va_loss", 917/5000)])).score
      = (FfmMeta.mk 42 (917/5000)).bestVALoss :=
  (C10_error_characterization (okEnv 1 1 4 7) false ⟨true, "", ""⟩
      (.jsonObj [("best_iteration", ((42 : ℤ) : ℚ)), ("best_va_loss", 917/5000)])).2.2
    ⟨42, 917/5000⟩ rfl rfl (by decide)
